import Mathlib

/-!
Verification of the SOQL-injection-safe query construction layer of the
mcp-server-salesforce repository: the lexical validators and escapers of
`soqlSanitizer.ts`, the aggregate-query builder of `tools/aggregateQuery.ts`
and the simple-select builder of `tools/query.ts`, shallowly embedded over
`String`/`List Char`.  JavaScript strings are modelled as Lean `String`
(sequences of `Char`); JavaScript numbers as `ℚ` (no NaN/Infinity arise in
the claims under study); thrown exceptions as `Except`.  The JS regexes used
by the source are embedded through a small Brzozowski-derivative matcher
(`RE`, `reMatch`) so that each source pattern is transcribed literally.
`\s`, `\w`, `\d` and `trim()` are modelled over the ASCII whitespace set plus
NBSP; more exotic Unicode space code points of JS are not modelled (no claim
depends on them).
-/

/-- JS `\s` (and the characters `String.prototype.trim` removes), restricted to
the common set: space, tab, newline, carriage return, vertical tab, form feed
and NBSP. -/
def isSpaceC (c : Char) : Bool :=
  c == ' ' || c == '\t' || c == '\n' || c == '\r' || c == '\x0b' || c == '\x0c' ||
  c == '\u00a0'

/-- JS `\d`. -/
def isDigitC (c : Char) : Bool := '0' ≤ c && c ≤ '9'

/-- ASCII letter. -/
def isAlphaC (c : Char) : Bool := ('A' ≤ c && c ≤ 'Z') || ('a' ≤ c && c ≤ 'z')

/-- JS `\w` = `[A-Za-z0-9_]`. -/
def isWordC (c : Char) : Bool := isAlphaC c || isDigitC c || c == '_'

/-- JS `[\w.]`. -/
def isWordDotC (c : Char) : Bool := isWordC c || c == '.'

/-- ASCII upper-casing, as `String.prototype.toUpperCase` acts on the ASCII
identifiers and keywords the source manipulates. -/
def toUpperC (c : Char) : Char :=
  if 'a' ≤ c && c ≤ 'z' then Char.ofNat (c.toNat - 32) else c

/-- `leads nd l`: `nd` is a (case-sensitive) prefix of `l`. -/
def leads : List Char → List Char → Bool
  | [], _ => true
  | _ :: _, [] => false
  | a :: as, b :: bs => a == b && leads as bs

/-- `ciLeads nd l`: `nd` is a case-insensitive prefix of `l`. -/
def ciLeads : List Char → List Char → Bool
  | [], _ => true
  | _ :: _, [] => false
  | a :: as, b :: bs => toUpperC a == toUpperC b && leads (as.map toUpperC) (bs.map toUpperC)

/-- Case-sensitive substring search: JS `String.prototype.includes`. -/
def subSearch (nd : List Char) : List Char → Bool
  | [] => nd.isEmpty
  | c :: cs => leads nd (c :: cs) || subSearch nd cs

/-- Case-insensitive substring search (an `/x/gi.test` for a literal token `x`). -/
def ciSubSearch (nd : List Char) : List Char → Bool
  | [] => nd.isEmpty
  | c :: cs => ciLeads nd (c :: cs) || ciSubSearch nd cs

/-- After a `\b`-closed keyword: the rest of the string must be empty or start
with a non-word character. -/
def wbTailOk : List Char → Bool
  | [] => true
  | c :: _ => !isWordC c

/-- `wbSearch kw prevW l`: JS `/\bKW\b/gi.test` on `l`, where `prevW` says
whether the character before `l` is a word character (false at the start of the
whole string). -/
def wbSearch (kw : List Char) : Bool → List Char → Bool
  | _, [] => false
  | prevW, c :: cs =>
    (!prevW && ciLeads kw (c :: cs) && wbTailOk (List.drop kw.length (c :: cs)))
      || wbSearch kw (isWordC c) cs

/-- The tail of the tautology patterns `/\b(OR|AND)\b\s+\d+\s*=\s*\d+/gi` after
the keyword: `\s+\d+\s*=\s*\d+` (the character classes are pairwise disjoint, so
greedy matching is deterministic). -/
def tautTail (l : List Char) : Bool :=
  let ws := l.takeWhile isSpaceC
  let r1 := l.dropWhile isSpaceC
  !ws.isEmpty &&
    (let ds := r1.takeWhile isDigitC
     let r2 := r1.dropWhile isDigitC
     !ds.isEmpty &&
       (match r2.dropWhile isSpaceC with
        | '=' :: r4 =>
          (match r4.dropWhile isSpaceC with
           | d :: _ => isDigitC d
           | [] => false)
        | _ => false))

/-- `tautSearch kw prevW l`: JS `/\bKW\b\s+\d+\s*=\s*\d+/gi.test` on `l` (the
`\b` after the keyword is subsumed by the mandatory `\s+`). -/
def tautSearch (kw : List Char) : Bool → List Char → Bool
  | _, [] => false
  | prevW, c :: cs =>
    (!prevW && ciLeads kw (c :: cs) && tautTail (List.drop kw.length (c :: cs)))
      || tautSearch kw (isWordC c) cs

/-- `String.prototype.trim` on a character list. -/
def trimmed (l : List Char) : List Char :=
  ((l.dropWhile isSpaceC).reverse.dropWhile isSpaceC).reverse

/-- Whether a character list starts with the character `c`
(`String.prototype.startsWith` for a one-character needle). -/
def headIs (c : Char) : List Char → Bool
  | [] => false
  | x :: _ => x == c

/-- Whether a character list ends with the character `c`
(`String.prototype.endsWith` for a one-character needle). -/
def lastIs (c : Char) (l : List Char) : Bool := headIs c l.reverse

/-- JS `String.prototype.split` on a one-character separator. -/
def splitOnChar (c : Char) : List Char → List (List Char)
  | [] => [[]]
  | x :: xs =>
    if x == c then [] :: splitOnChar c xs
    else
      match splitOnChar c xs with
      | h :: t => (x :: h) :: t
      | [] => [[x]]

/-- One `String.prototype.replace(/c/g, r)` step for a single-character pattern
`c` and replacement text `r`. -/
def repl (c : Char) (r : List Char) : List Char → List Char
  | [] => []
  | x :: xs => (if x == c then r else [x]) ++ repl c r xs

/-- Regular expressions over `Char`, with character classes as predicates:
enough to transcribe the anchored JS regexes of the source literally. -/
inductive RE where
  | emp : RE
  | eps : RE
  | cls (p : Char → Bool) : RE
  | seq (a b : RE) : RE
  | alt (a b : RE) : RE
  | star (a : RE) : RE

/-- Whether the regex accepts the empty string. -/
def RE.nullable : RE → Bool
  | .emp => false
  | .eps => true
  | .cls _ => false
  | .seq a b => a.nullable && b.nullable
  | .alt a b => a.nullable || b.nullable
  | .star _ => true

/-- Smart sequencing (keeps derivative terms small). -/
def RE.seqS : RE → RE → RE
  | .emp, _ => .emp
  | _, .emp => .emp
  | .eps, b => b
  | a, .eps => a
  | a, b => .seq a b

/-- Smart alternation (keeps derivative terms small). -/
def RE.altS : RE → RE → RE
  | .emp, b => b
  | a, .emp => a
  | a, b => .alt a b

/-- Brzozowski derivative by a character. -/
def RE.deriv (c : Char) : RE → RE
  | .emp => .emp
  | .eps => .emp
  | .cls p => if p c then .eps else .emp
  | .seq a b =>
    if a.nullable then .altS (.seqS (a.deriv c) b) (b.deriv c)
    else .seqS (a.deriv c) b
  | .alt a b => .altS (a.deriv c) (b.deriv c)
  | .star a => .seqS (a.deriv c) (.star a)

/-- Whole-string regex matching: the embedding of `pattern.test(s)` for the
source's `^...$`-anchored patterns. -/
def reMatch : RE → List Char → Bool
  | r, [] => r.nullable
  | r, c :: cs => reMatch (r.deriv c) cs

/-- A literal character. -/
def litC (c : Char) : RE := .cls (fun x => x == c)

/-- A case-insensitive literal character (for `/i` patterns). -/
def litCI (c : Char) : RE := .cls (fun x => toUpperC x == toUpperC c)

/-- A literal string. -/
def strR (s : String) : RE := s.data.foldr (fun c r => .seq (litC c) r) .eps

/-- A case-insensitive literal string. -/
def strCIR (s : String) : RE := s.data.foldr (fun c r => .seq (litCI c) r) .eps

/-- `r?`. -/
def optR (r : RE) : RE := .alt .eps r

/-- `r+`. -/
def plusR (r : RE) : RE := .seq r (.star r)

/-- `[a-zA-Z_][a-zA-Z0-9_]*`, the identifier-segment shape shared by the
source's patterns. -/
def identRE : RE := .seq (.cls fun c => isAlphaC c || c == '_') (.star (.cls isWordC))

/-- `soqlSanitizer.ts` line 79: `/^[a-zA-Z_][a-zA-Z0-9_]*(__c)?$/`. -/
def objectNameRE : RE := .seq identRE (optR (strR "__c"))

/-- `soqlSanitizer.ts` line 62:
`/^[a-zA-Z_][a-zA-Z0-9_]*(\.[a-zA-Z_][a-zA-Z0-9_]*)*(__c|__r)?$/`. -/
def fieldNameRE : RE :=
  .seq identRE (.seq (.star (.seq (litC '.') identRE)) (optR (.alt (strR "__c") (strR "__r"))))

/-- `soqlSanitizer.ts` line 43: `new RegExp('^FUNC\\([\\w\\.]+\\)(\\s+\\w+)?$', 'i')`
for a function name `f`. -/
def funcPatternRE (f : String) : RE :=
  .seq (strCIR f)
    (.seq (litC '(')
      (.seq (plusR (.cls isWordDotC))
        (.seq (litC ')')
          (optR (.seq (plusR (.cls isSpaceC)) (plusR (.cls isWordC)))))))

/-- `query.ts` line 101: `/^\(SELECT.*FROM.*\)$/` (JS `.` excludes newline). -/
def subqueryFormatRE : RE :=
  .seq (strR "(SELECT")
    (.seq (.star (.cls fun c => !(c == '\n')))
      (.seq (strR "FROM")
        (.seq (.star (.cls fun c => !(c == '\n'))) (litC ')'))))

/-- One entry of `query.ts` line 174's ORDER BY pattern:
`[a-zA-Z_][a-zA-Z0-9_\.]*(\s+(ASC|DESC))?` with `/i`. -/
def orderByEntryRE : RE :=
  .seq (.seq (.cls fun c => isAlphaC c || c == '_') (.star (.cls isWordDotC)))
    (optR (.seq (plusR (.cls isSpaceC)) (.alt (strCIR "ASC") (strCIR "DESC"))))

/-- `query.ts` line 174: the full anchored ORDER BY clause pattern. -/
def orderByClauseRE : RE :=
  .seq orderByEntryRE
    (.star (.seq (.star (.cls isSpaceC))
      (.seq (litC ',') (.seq (.star (.cls isSpaceC)) orderByEntryRE))))

/-- `s.toUpperCase()`. -/
def upperS (s : String) : String := String.mk (s.data.map toUpperC)

/-- `s.trim()`. -/
def trimS (s : String) : String := String.mk (trimmed s.data)

/-- `anchoredPattern.test s`. -/
def reTest (r : RE) (s : String) : Bool := reMatch r s.data

/-- `s.includes nd`. -/
def subSearchS (nd s : String) : Bool := subSearch nd.data s.data

/-- Case-insensitive substring containment. -/
def ciSubSearchS (nd s : String) : Bool := ciSubSearch nd.data s.data

/-- `/\bKW\b/gi.test s`. -/
def wbSearchS (kw s : String) : Bool := wbSearch kw.data false s.data

/-- `/\bKW\b\s+\d+\s*=\s*\d+/gi.test s`. -/
def tautSearchS (kw s : String) : Bool := tautSearch kw.data false s.data

/-! ## `soqlSanitizer.ts` -/

/-- The error taxonomy of the sanitization layer: each constructor corresponds
to one `throw new Error(...)` site of `soqlSanitizer.ts` (named after the
spec's error taxonomy). -/
inductive SoqlError where
  | invalidFunctionSyntax (func field : String)
  | invalidSubqueryFormat (field : String)
  | invalidFieldName (field : String)
  | invalidIdentifier (objectName : String)
  | invalidOperator (op : String)
  | undefinedValue
  | operatorValueMismatch
  | arrayElementType
  | unsupportedValueType
  | invalidLimit
  | dangerousPattern
  deriving DecidableEq, Repr

/-- `escapeSoqlString` on a character list: the five sequential
`String.prototype.replace` calls of `soqlSanitizer.ts` lines 18-23
(backslash first, then single quote, then newline, carriage return, tab;
each replacement text is the two-character escape sequence). -/
def escapeSoqlList (l : List Char) : List Char :=
  repl '\t' ['\\', 't']
    (repl '\r' ['\\', 'r']
      (repl '\n' ['\\', 'n']
        (repl '\'' ['\\', '\'']
          (repl '\\' ['\\', '\\'] l))))

/-- `soqlSanitizer.ts` lines 11-24, `escapeSoqlString`.  The dynamic
`typeof value !== 'string'` guard is vacuous here because the input is typed
as a string. -/
def escapeSoqlString (s : String) : String := String.mk (escapeSoqlList s.data)

/-- `soqlSanitizer.ts` line 35 (the sanitizer's own list, in its order). -/
def sanitizerAggregateFunctions : List String :=
  ["COUNT", "SUM", "AVG", "MIN", "MAX", "COUNT_DISTINCT"]

/-- `soqlSanitizer.ts` line 36. -/
def dateTimeFunctions : List String :=
  ["CALENDAR_YEAR", "CALENDAR_MONTH", "CALENDAR_QUARTER", "FISCAL_YEAR", "FISCAL_QUARTER"]

/-- `[...aggregateFunctions, ...dateTimeFunctions]` (`soqlSanitizer.ts`
line 40). -/
def allValidatorFunctions : List String := sanitizerAggregateFunctions ++ dateTimeFunctions

/-- The `for (const func of [...aggregateFunctions, ...dateTimeFunctions])`
loop of `soqlSanitizer.ts` lines 40-49: the first function whose name followed
by `(` occurs in the upper-cased field. -/
def firstDetectedFunc (fieldName : String) : Option String :=
  allValidatorFunctions.find? (fun fn => subSearchS (fn ++ "(") (upperS fieldName))

/-- `soqlSanitizer.ts` lines 32-68, `validateFieldName`: accepts an
aggregate/date function call (pattern tested on the trimmed string), a
parenthesized subquery containing `SELECT` and `FROM`, or a plain/dotted
field name; in every accepted case the original (untrimmed) input is
returned. -/
def validateFieldName (fieldName : String) : Except SoqlError String :=
  match firstDetectedFunc fieldName with
  | some fn =>
    if reTest (funcPatternRE fn) (trimS fieldName) then .ok fieldName
    else .error (.invalidFunctionSyntax fn fieldName)
  | none =>
    if headIs '(' (trimmed fieldName.data) && lastIs ')' (trimmed fieldName.data) then
      if subSearchS "SELECT" fieldName && subSearchS "FROM" fieldName then .ok fieldName
      else .error (.invalidSubqueryFormat fieldName)
    else if reTest fieldNameRE fieldName then .ok fieldName
    else .error (.invalidFieldName fieldName)

/-- `soqlSanitizer.ts` lines 76-86, `validateObjectName`. -/
def validateObjectName (objectName : String) : Except SoqlError String :=
  if reTest objectNameRE objectName then .ok objectName
  else .error (.invalidIdentifier objectName)

/-- A JavaScript value as it can reach a WHERE-condition's `value` slot.
Numbers carry an integer (the claims under study never serialize a
non-integral number); `date` carries the value of `toISOString()`;
`other` stands for any value of a type with no serialization rule. -/
inductive JSValue where
  | null : JSValue
  | undef : JSValue
  | str (s : String) : JSValue
  | num (n : Int) : JSValue
  | bool (b : Bool) : JSValue
  | arr (elems : List JSValue) : JSValue
  | date (iso : String) : JSValue
  | other : JSValue

/-- One condition object of `buildSafeWhereClause`. -/
structure WhereCondition where
  field : String
  operator : String
  value : JSValue

/-- `soqlSanitizer.ts` line 94. -/
def validOperators : List String :=
  ["=", "!=", "<>", "<", ">", "<=", ">=", "LIKE", "IN", "NOT IN", "INCLUDES", "EXCLUDES"]

/-- The element serializer of the array branch (`soqlSanitizer.ts`
lines 122-130): strings are escaped and quoted, numbers stringified,
anything else throws. -/
def serializeArrayElem : JSValue → Except SoqlError String
  | .str s => .ok ("'" ++ escapeSoqlString s ++ "'")
  | .num n => .ok (toString n)
  | _ => .error .arrayElementType

/-- The value-handling block of `buildSafeWhereClause` (`soqlSanitizer.ts`
lines 105-136) — the spec's `serializeLiteral(value, allowedOperator)`;
`opUpper` is `condition.operator.toUpperCase()`. -/
def serializeValue (v : JSValue) (opUpper : String) : Except SoqlError String :=
  match v with
  | .null => .ok "NULL"
  | .undef => .error .undefinedValue
  | .str s => .ok ("'" ++ escapeSoqlString s ++ "'")
  | .num n => .ok (toString n)
  | .bool b => .ok (if b then "TRUE" else "FALSE")
  | .arr vs =>
    if !(["IN", "NOT IN", "INCLUDES", "EXCLUDES"].contains opUpper) then
      .error .operatorValueMismatch
    else
      match vs.mapM serializeArrayElem with
      | .error e => .error e
      | .ok es => .ok ("(" ++ String.intercalate ", " es ++ ")")
  | .date iso => .ok iso
  | .other => .error .unsupportedValueType

/-- One pass of the `conditions.map` body of `buildSafeWhereClause`
(`soqlSanitizer.ts` lines 96-139): validate the field, validate the operator,
serialize the value, emit `field OP value`. -/
def buildCondClause (c : WhereCondition) : Except SoqlError String :=
  match validateFieldName c.field with
  | .error e => .error e
  | .ok safeField =>
    if !(validOperators.contains (upperS c.operator)) then
      .error (.invalidOperator c.operator)
    else
      match serializeValue c.value (upperS c.operator) with
      | .error e => .error e
      | .ok safeValue => .ok (safeField ++ " " ++ upperS c.operator ++ " " ++ safeValue)

/-- `soqlSanitizer.ts` lines 93-142, `buildSafeWhereClause`. -/
def buildSafeWhereClause (conditions : List WhereCondition) : Except SoqlError String :=
  match conditions.mapM buildCondClause with
  | .error e => .error e
  | .ok clauses => .ok (String.intercalate " AND " clauses)

/-- `soqlSanitizer.ts` lines 173-184, `validateLimit`; the JS number is
modelled as `ℚ` with `Number.isInteger n` as `n.den = 1`. -/
def validateLimit (limit : ℚ) : Except SoqlError ℚ :=
  if ¬(limit.den = 1) ∨ limit < 1 then .error .invalidLimit
  else if limit > 50000 then .error .invalidLimit
  else .ok limit

/-- The keyword alternation of the first deny pattern of `sanitizeWhereClause`
(`soqlSanitizer.ts` line 234). -/
def dangerousKeywords : List String :=
  ["UNION", "SELECT", "INSERT", "UPDATE", "DELETE", "DROP", "CREATE", "ALTER", "EXEC", "EXECUTE"]

/-- The token alternation of the second deny pattern
`/(;|--|\*|\/\*|\*\/|xp_|sp_)/gi` (`soqlSanitizer.ts` line 235): note the
bare `\*` alternative — any asterisk matches. -/
def dangerousTokens : List String := [";", "--", "*", "/*", "*/", "xp_", "sp_"]

/-- The four deny patterns of `sanitizeWhereClause` (`soqlSanitizer.ts`
lines 233-238), disjoined. -/
def hasDangerousPattern (w : String) : Bool :=
  dangerousKeywords.any (fun k => wbSearchS k w)
    || dangerousTokens.any (fun t => ciSubSearchS t w)
    || tautSearchS "OR" w
    || tautSearchS "AND" w

/-- `soqlSanitizer.ts` lines 227-248, `sanitizeWhereClause`: blank input
passes through as the empty string, a deny-list match throws, anything else
is returned unchanged. -/
def sanitizeWhereClause (whereClause : String) : Except SoqlError String :=
  if whereClause == "" || trimS whereClause == "" then .ok ""
  else if hasDangerousPattern whereClause then .error .dangerousPattern
  else .ok whereClause

/-- `soqlSanitizer.ts` line 255. -/
def MAX_WHERE_LENGTH : Nat := 5000

/-! ## `tools/aggregateQuery.ts` -/

/-- `aggregateQuery.ts` line 101 (this module's own list, in its order). -/
def AGGREGATE_FUNCTIONS : List String :=
  ["COUNT", "COUNT_DISTINCT", "SUM", "AVG", "MIN", "MAX"]

/-- `aggregateQuery.ts` line 102. -/
def DATE_FUNCTIONS : List String :=
  ["CALENDAR_YEAR", "CALENDAR_MONTH", "CALENDAR_QUARTER", "FISCAL_YEAR", "FISCAL_QUARTER"]

/-- `aggregateQuery.ts` lines 105-108, `isAggregateField`: case-insensitive
`FUNC(` substring test against the aggregate-function vocabulary only (date
functions are not aggregates). -/
def isAggregateField (field : String) : Bool :=
  AGGREGATE_FUNCTIONS.any (fun fn => subSearchS (fn ++ "(") (upperS field))

/-- `aggregateQuery.ts` lines 111-115, `extractBaseField`:
`field.trim().split(/\s+/)[0]`, i.e. the first maximal run of non-whitespace
characters of the trimmed field. -/
def extractBaseField (field : String) : String :=
  String.mk ((trimmed field.data).takeWhile (fun c => !isSpaceC c))

/-- `aggregateQuery.ts` lines 118-122, `extractNonAggregateFields`. -/
def extractNonAggregateFields (selectFields : List String) : List String :=
  (selectFields.filter (fun f => !isAggregateField f)).map extractBaseField

/-- `aggregateQuery.ts` lines 125-135, `validateGroupByFields`, returned as
the `missingFields` list (the source's `isValid` is its emptiness): the
non-aggregate base fields that are not members of the set of trimmed GROUP BY
entries. -/
def validateGroupByFields (selectFields groupByFields : List String) : List String :=
  (extractNonAggregateFields selectFields).filter
    (fun f => !((groupByFields.map trimS).contains f))

/-- `aggregateQuery.ts` lines 138-152, `validateWhereClause` (the aggregate
build's): a missing or empty (falsy) WHERE clause is valid; otherwise no
aggregate-function call may occur in it. -/
def validateWhereClauseAgg (whereClause : Option String) : Bool :=
  match whereClause with
  | none => true
  | some w =>
    w == "" || !(AGGREGATE_FUNCTIONS.any (fun fn => subSearchS (fn ++ "(") (upperS w)))

/-- `part.trim().replace(/ (DESC|ASC)$/i, '')` (`aggregateQuery.ts`
line 160, inner replace): strip one trailing ` DESC` or ` ASC`,
case-insensitively. -/
def stripOrderDir (s : String) : String :=
  if ciLeads " DESC".data.reverse s.data.reverse then String.mk (s.data.dropLast.dropLast.dropLast.dropLast.dropLast)
  else if ciLeads " ASC".data.reverse s.data.reverse then String.mk (s.data.dropLast.dropLast.dropLast.dropLast)
  else s

/-- `aggregateQuery.ts` lines 155-177, `validateOrderBy`, as the first
offending ORDER BY entry (`none` = valid): each comma-separated entry, with a
trailing direction stripped, must be a raw GROUP BY entry, the base field of
an aggregate select entry, or itself an aggregate-function call. -/
def orderByOffender (orderBy : Option String) (groupByFields selectFields : List String) :
    Option String :=
  match orderBy with
  | none => none
  | some ob =>
    if ob == "" then none
    else
      let parts :=
        ((splitOnChar ',' ob.data).map String.mk).map (fun p => trimS (stripOrderDir (trimS p)))
      let aggregateFields :=
        (selectFields.filter (fun f => isAggregateField f)).map extractBaseField
      parts.find? (fun p =>
        !(groupByFields.contains p) && !(aggregateFields.contains p) && !(isAggregateField p))

/-- The argument object of the aggregate-query tool (`AggregateQueryArgs`,
`aggregateQuery.ts` lines 90-98); `limit` is a JS number. -/
structure AggregateQueryArgs where
  objectName : String
  selectFields : List String
  groupByFields : List String
  whereClause : Option String := none
  havingClause : Option String := none
  orderBy : Option String := none
  limit : Option ℚ := none

/-- The error responses (`isError: true` returns) of `handleAggregateQuery`
before any query is executed, named after the spec's taxonomy. -/
inductive AggError where
  | missingGroupByFields (fields : List String)
  | aggregateInWhere
  | invalidOrderByField (field : String)
  deriving DecidableEq, Repr

/-- JS template-string rendering of a number: exact for the integral values
every theorem below uses; the (unused) non-integral branch is not modelled
precisely. -/
def jsNumRepr (q : ℚ) : String :=
  if q.den == 1 then toString q.num else toString q.num ++ "/" ++ toString q.den

/-- JS truthiness of an optional string (`undefined` and `''` are falsy). -/
def strTruthy : Option String → Bool
  | none => false
  | some s => s != ""

/-- JS truthiness of an optional number (`undefined` and `0` are falsy). -/
def numTruthy : Option ℚ → Bool
  | none => false
  | some q => q != 0

/-- The query-construction part of `handleAggregateQuery`
(`aggregateQuery.ts` lines 179-226): the three validations in order, then the
SOQL text exactly as concatenated at lines 221-226.  Note that none of
`validateObjectName`, `validateFieldName`, `validateLimit` is called on this
path, and that each optional clause is guarded by JS truthiness (so
`limit: 0` is silently dropped). -/
def handleAggregateQueryBuild (args : AggregateQueryArgs) : Except AggError String :=
  let missing := validateGroupByFields args.selectFields args.groupByFields
  if !missing.isEmpty then .error (.missingGroupByFields missing)
  else if !validateWhereClauseAgg args.whereClause then .error .aggregateInWhere
  else
    match orderByOffender args.orderBy args.groupByFields args.selectFields with
    | some p => .error (.invalidOrderByField p)
    | none =>
      .ok ("SELECT " ++ String.intercalate ", " args.selectFields
        ++ " FROM " ++ args.objectName
        ++ (if strTruthy args.whereClause then " WHERE " ++ args.whereClause.getD "" else "")
        ++ " GROUP BY " ++ String.intercalate ", " args.groupByFields
        ++ (if strTruthy args.havingClause then " HAVING " ++ args.havingClause.getD "" else "")
        ++ (if strTruthy args.orderBy then " ORDER BY " ++ args.orderBy.getD "" else "")
        ++ (match args.limit with
            | some q => if q != 0 then " LIMIT " ++ jsNumRepr q else ""
            | none => ""))

/-! ## `tools/query.ts` -/

/-- The argument object of the record-query tool (`QueryArgs`, `query.ts`
lines 70-76). -/
structure QueryArgs where
  objectName : String
  fields : List String
  whereClause : Option String := none
  orderBy : Option String := none
  limit : Option ℚ := none

/-- The failures of `handleQueryRecords` before any query is executed: a
thrown sanitizer error, or one of the handler's own `isError: true` returns. -/
inductive QueryBuildError where
  | soql (e : SoqlError)
  | invalidRelationship (field : String)
  | whereTooLong
  | invalidOrderByFormat
  deriving DecidableEq, Repr

/-- Whether one field trips `validateRelationshipFields` (`query.ts`
lines 79-110): a dotted path with an empty segment or more than 5 segments,
or a field containing `SELECT` that does not match `/^\(SELECT.*FROM.*\)$/`. -/
def relFieldIssue (field : String) : Bool :=
  (subSearchS "." field &&
    (let parts := splitOnChar '.' field.data
     parts.any (fun p => p.isEmpty) || decide (parts.length > 5)))
  || (subSearchS "SELECT" field && !(reTest subqueryFormatRE field))

/-- The WHERE step of `handleQueryRecords` (`query.ts` lines 155-168):
falsy input keeps the empty clause; a too-long clause is rejected before
`sanitizeWhereClause` runs. -/
def whereStep (whereClause : Option String) : Except QueryBuildError String :=
  match whereClause with
  | none => .ok ""
  | some w =>
    if w == "" then .ok ""
    else if decide (w.length > MAX_WHERE_LENGTH) then .error .whereTooLong
    else
      match sanitizeWhereClause w with
      | .error e => .error (.soql e)
      | .ok s => .ok s

/-- The ORDER BY step of `handleQueryRecords` (`query.ts` lines 170-185). -/
def orderByStep (orderBy : Option String) : Except QueryBuildError String :=
  match orderBy with
  | none => .ok ""
  | some ob =>
    if ob == "" then .ok ""
    else if !(reTest orderByClauseRE (trimS ob)) then .error .invalidOrderByFormat
    else .ok (trimS ob)

/-- The query-construction part of `handleQueryRecords` (`query.ts`
lines 131-197): validate the object name, every field, the relationship
shapes, the WHERE clause, the ORDER BY clause and the LIMIT, then concatenate
the SOQL text exactly as at lines 194-197. -/
def handleQueryRecordsBuild (args : QueryArgs) : Except QueryBuildError String :=
  match validateObjectName args.objectName with
  | .error e => .error (.soql e)
  | .ok safeObjectName =>
  match args.fields.mapM validateFieldName with
  | .error e => .error (.soql e)
  | .ok safeFields =>
  match safeFields.find? relFieldIssue with
  | some f => .error (.invalidRelationship f)
  | none =>
  match whereStep args.whereClause with
  | .error e => .error e
  | .ok safeWhereClause =>
  match orderByStep args.orderBy with
  | .error e => .error e
  | .ok safeOrderBy =>
  match (match args.limit with
         | none => .ok none
         | some q => (validateLimit q).map some : Except SoqlError (Option ℚ)) with
  | .error e => .error (.soql e)
  | .ok safeLimit =>
    .ok ("SELECT " ++ String.intercalate ", " safeFields ++ " FROM " ++ safeObjectName
      ++ (if safeWhereClause != "" then " WHERE " ++ safeWhereClause else "")
      ++ (if safeOrderBy != "" then " ORDER BY " ++ safeOrderBy else "")
      ++ (match safeLimit with
          | some q => if q != 0 then " LIMIT " ++ jsNumRepr q else ""
          | none => ""))

/-! ## Claim-side definitions

Predicates written from the claims' own words, to be compared with the
behaviour of the embedded code. -/

/-- The spec's output scan for C2: walk the string tracking the parity of the
current run of consecutive backslashes; a single quote is in order only when
that parity is odd (and resets the run), and at the end of the string the
parity must be even (so a terminal backslash closes an even run, i.e. it is
preceded by an odd number of backslashes). -/
def soqlScan : List Char → Bool → Bool
  | [], parity => !parity
  | c :: cs, parity =>
    if c == '\\' then soqlScan cs (!parity)
    else if c == '\'' then parity && soqlScan cs false
    else soqlScan cs false

/-- C2's property of an escaped output string: no unescaped single quote and
no unescaped terminal backslash. -/
def escapedOutputOk (s : String) : Bool := soqlScan s.data false

/-- C3's hypothesis: the string contains a semicolon, whitespace, or a SQL
keyword (the keyword vocabulary is the repository's own deny list). -/
def containsBad (s : String) : Bool :=
  subSearchS ";" s || s.data.any isSpaceC
    || dangerousKeywords.any (fun k => ciSubSearchS k s)

/-- C3's four accepted grammars, applied to the string exactly as written
(no trimming): simple identifier, dotted relationship path (both as the
code's anchored patterns), aggregate/date function call with optional alias,
parenthesized subquery containing `SELECT` and `FROM`. -/
def acceptedGrammarStrict (s : String) : Bool :=
  reTest objectNameRE s || reTest fieldNameRE s
    || allValidatorFunctions.any (fun fn => reTest (funcPatternRE fn) s)
    || (headIs '(' s.data && lastIs ')' s.data && subSearchS "SELECT" s && subSearchS "FROM" s)

/-- The four grammars as the code actually applies them: the function-call
and subquery shapes are tested on the whitespace-trimmed string. -/
def acceptedGrammarTrimmed (s : String) : Bool :=
  reTest objectNameRE s || reTest fieldNameRE s
    || allValidatorFunctions.any (fun fn => reTest (funcPatternRE fn) (trimS s))
    || (headIs '(' (trimmed s.data) && lastIs ')' (trimmed s.data)
        && subSearchS "SELECT" s && subSearchS "FROM" s)

/-- C5's deny list exactly as the claim states it: the ten keywords as whole
words, the tokens `;`, `--`, `*/`, `/*`, `xp_`, `sp_`, and the two
`OR/AND <num>=<num>` tautology patterns — without the bare-asterisk token. -/
def specDenyListedOrig (w : String) : Bool :=
  dangerousKeywords.any (fun k => wbSearchS k w)
    || ([";", "--", "*/", "/*", "xp_", "sp_"] : List String).any (fun t => ciSubSearchS t w)
    || tautSearchS "OR" w || tautSearchS "AND" w

/-- C5's deny list as amended: the code's second pattern also contains a bare
`\*` alternative, so any asterisk is deny-listed. -/
def specDenyListedAmended (w : String) : Bool :=
  dangerousKeywords.any (fun k => wbSearchS k w)
    || ([";", "--", "*", "/*", "*/", "xp_", "sp_"] : List String).any (fun t => ciSubSearchS t w)
    || tautSearchS "OR" w || tautSearchS "AND" w

deriving instance DecidableEq for Except

/-! ## Theorems -/

theorem repl_append (c : Char) (r a b : List Char) :
    repl c r (a ++ b) = repl c r a ++ repl c r b := by
  induction a with
  | nil => rfl
  | cons x xs ih => simp [repl, ih]

theorem escapeSoqlList_append (a b : List Char) :
    escapeSoqlList (a ++ b) = escapeSoqlList a ++ escapeSoqlList b := by
  simp [escapeSoqlList, repl_append]

theorem soqlScan_escape_single (x : Char) (t : List Char) :
    soqlScan (escapeSoqlList [x] ++ t) false = soqlScan t false := by
  by_cases h1 : x = '\\'
  · subst h1; simp [escapeSoqlList, repl, soqlScan]
  · by_cases h2 : x = '\''
    · subst h2; simp [escapeSoqlList, repl, soqlScan]
    · by_cases h3 : x = '\n'
      · subst h3; simp [escapeSoqlList, repl, soqlScan]
      · by_cases h4 : x = '\r'
        · subst h4; simp [escapeSoqlList, repl, soqlScan]
        · by_cases h5 : x = '\t'
          · subst h5; simp [escapeSoqlList, repl, soqlScan]
          · have hx : escapeSoqlList [x] = [x] := by
              simp [escapeSoqlList, repl, h1, h2, h3, h4, h5]
            rw [hx]
            simp [soqlScan, h1, h2]

theorem soqlScan_escape (l : List Char) : soqlScan (escapeSoqlList l) false = true := by
  induction l with
  | nil => rfl
  | cons x xs ih =>
    have : (x :: xs) = [x] ++ xs := rfl
    rw [this, escapeSoqlList_append, soqlScan_escape_single, ih]

/-- C2: for every input string, the output of `escapeSoqlString` contains no
unescaped single quote and no unescaped terminal backslash — every `'` and
every terminal `\` of the output is immediately preceded by an odd number of
consecutive backslashes (stated through the scan `soqlScan`). -/
theorem C2_escape_no_unescaped_terminator (s : String) :
    escapedOutputOk (escapeSoqlString s) = true :=
  soqlScan_escape s.data

/-- C1 (code bug): `handleAggregateQuery` emits a SOQL string that embeds an
object name rejected by `validateObjectName` and a select/GROUP BY entry
rejected by `validateFieldName` — the aggregate build calls neither
validator. -/
theorem C1_aggregate_build_bypasses_validators :
    handleAggregateQueryBuild
        ⟨"Bad Object", ["Bad;Field"], ["Bad;Field"], none, none, none, none⟩
      = .ok "SELECT Bad;Field FROM Bad Object GROUP BY Bad;Field"
    ∧ (validateObjectName "Bad Object").isOk = false
    ∧ (validateFieldName "Bad;Field").isOk = false := by
  refine ⟨by decide, by decide, by decide⟩

/-- C7 (code bug): in the aggregate build an invalid LIMIT is not rejected:
`limit: 0` is falsy and is silently dropped (the emitted query has no LIMIT
clause), and `limit: -5` is embedded verbatim as `LIMIT -5`, while
`validateLimit` — never called on this path — rejects both. -/
theorem C7_invalid_limit_not_rejected :
    handleAggregateQueryBuild
        ⟨"Opportunity", ["StageName", "COUNT(Id)"], ["StageName"], none, none, none, some 0⟩
      = .ok "SELECT StageName, COUNT(Id) FROM Opportunity GROUP BY StageName"
    ∧ handleAggregateQueryBuild
        ⟨"Opportunity", ["StageName", "COUNT(Id)"], ["StageName"], none, none, none, some (-5)⟩
      = .ok "SELECT StageName, COUNT(Id) FROM Opportunity GROUP BY StageName LIMIT -5"
    ∧ (validateLimit 0).isOk = false
    ∧ (validateLimit (-5)).isOk = false := by
  refine ⟨by decide, by decide, by decide, by decide⟩

/-- C3 (counterexample): `" COUNT(Id)"` contains whitespace and belongs to
none of the four accepted grammars as literally stated (the leading space is
part of the string), yet `validateFieldName` returns it unmodified — the
function-call check is performed on the trimmed copy. -/
theorem C3_counterexample :
    containsBad " COUNT(Id)" = true
    ∧ acceptedGrammarStrict " COUNT(Id)" = false
    ∧ validateFieldName " COUNT(Id)" = .ok " COUNT(Id)" := by
  refine ⟨by decide, by decide, by decide⟩

/-- C4 (counterexample): with select list `["StageName"]` and group-by list
`["StageName "]` (trailing space) the aggregate build succeeds although the
alias-stripped select entry `"StageName"` is not a member of the group-by
list — the code compares against trimmed group-by entries. -/
theorem C4_counterexample :
    (handleAggregateQueryBuild
        ⟨"Opportunity", ["StageName"], ["StageName "], none, none, none, none⟩).isOk = true
    ∧ isAggregateField "StageName" = false
    ∧ extractBaseField "StageName" = "StageName"
    ∧ (["StageName "] : List String).contains "StageName" = false := by
  refine ⟨by decide, by decide, by decide, by decide⟩

/-- C5 (counterexample): `"a*b"` matches none of the deny-list patterns the
claim enumerates (and is not blank), yet `sanitizeWhereClause` raises
`DangerousPattern` — the code's second pattern also deny-lists a bare `*`. -/
theorem C5_counterexample :
    specDenyListedOrig "a*b" = false
    ∧ (trimS "a*b" == "") = false
    ∧ sanitizeWhereClause "a*b" = .error .dangerousPattern := by
  refine ⟨by decide, by decide, by decide⟩

/-- C8: `validateLimit n` succeeds (returning `n`) exactly when `n` is an
integer with `1 ≤ n ≤ 50000`; in particular `0`, `-5`, `3/2` and `50001`
fail while `1` and `50000` succeed. -/
theorem C8_validateLimit_boundary :
    (∀ q : ℚ, validateLimit q = .ok q ↔ (q.den = 1 ∧ 1 ≤ q ∧ q ≤ 50000))
    ∧ (validateLimit 0).isOk = false
    ∧ (validateLimit (-5)).isOk = false
    ∧ (validateLimit (3 / 2 : ℚ)).isOk = false
    ∧ (validateLimit 50001).isOk = false
    ∧ validateLimit 1 = .ok 1
    ∧ validateLimit 50000 = .ok 50000 := by
  have h32 : (validateLimit (3 / 2 : ℚ)).isOk = false := by
    have hden : (3 / 2 : ℚ).den = 2 := by norm_num
    unfold validateLimit
    rw [if_pos (Or.inl (by rw [hden]; norm_num))]
    rfl
  refine ⟨fun q => ?_, by decide, by decide, h32, by decide, by decide, by decide⟩
  unfold validateLimit
  split_ifs with h1 h2
  · simp only [false_iff]
    rintro ⟨hd, hle, _⟩
    rcases h1 with h | h
    · exact h hd
    · exact absurd hle (not_le.mpr h)
  · simp only [false_iff]
    rintro ⟨_, _, hle⟩
    exact absurd h2 (not_lt.mpr hle)
  · push_neg at h1
    simp only [Except.ok.injEq, true_iff]
    exact ⟨h1.1, h1.2, not_lt.mp h2⟩

/-- C9: an accepted input is returned character-for-character (no trimming or
normalization), so both validators are idempotent: re-validating an accepted
output succeeds and returns the same string. -/
theorem C9_validators_return_input_unchanged (s t : String) :
    (validateFieldName s = .ok t → t = s ∧ validateFieldName t = .ok t)
    ∧ (validateObjectName s = .ok t → t = s ∧ validateObjectName t = .ok t) := by
  constructor
  · intro h
    have hts : t = s := by
      cases hfd : firstDetectedFunc s with
      | some fn =>
        simp only [validateFieldName, hfd] at h
        split_ifs at h
        exact (Except.ok.inj h).symm
      | none =>
        simp only [validateFieldName, hfd] at h
        split_ifs at h
        · exact (Except.ok.inj h).symm
        · exact (Except.ok.inj h).symm
    subst hts
    exact ⟨rfl, h⟩
  · intro h
    have hts : t = s := by
      unfold validateObjectName at h
      split_ifs at h
      · exact (Except.ok.inj h).symm
    subst hts
    exact ⟨rfl, h⟩

/-- C3 (as amended): every string containing a semicolon, whitespace or a SQL
keyword whose whitespace-trimmed form lies outside the four accepted grammars
is rejected by both `validateFieldName` and `validateObjectName` — the
function-call and subquery grammars are matched against the trimmed copy of
the input. -/
theorem C3_amended_rejection (s : String) (h1 : containsBad s = true)
    (h2 : acceptedGrammarTrimmed s = false) :
    (validateFieldName s).isOk = false ∧ (validateObjectName s).isOk = false := by
  constructor
  · cases hfd : firstDetectedFunc s with
    | some fn =>
      have hmem : fn ∈ allValidatorFunctions := List.mem_of_find?_eq_some hfd
      have hfp : reTest (funcPatternRE fn) (trimS s) = false := by
        by_contra hc
        have hany : allValidatorFunctions.any (fun g => reTest (funcPatternRE g) (trimS s)) = true :=
          List.any_eq_true.mpr ⟨fn, hmem, by simpa using hc⟩
        have : acceptedGrammarTrimmed s = true := by
          unfold acceptedGrammarTrimmed
          simp [hany]
        simp [h2] at this
      simp only [validateFieldName, hfd, hfp]
      rfl
    | none =>
      simp only [validateFieldName, hfd]
      split_ifs with hsub hsf hpf
      · exfalso
        have : acceptedGrammarTrimmed s = true := by
          unfold acceptedGrammarTrimmed
          rcases Bool.and_eq_true_iff.mp hsub with ⟨hh, hl⟩
          rcases Bool.and_eq_true_iff.mp hsf with ⟨hse, hfr⟩
          simp [hh, hl, hse, hfr]
        simp [h2] at this
      · rfl
      · exfalso
        have : acceptedGrammarTrimmed s = true := by
          unfold acceptedGrammarTrimmed
          simp [hpf]
        simp [h2] at this
      · rfl
  · simp only [validateObjectName]
    split_ifs with ho
    · exfalso
      have : acceptedGrammarTrimmed s = true := by
        unfold acceptedGrammarTrimmed
        simp [ho]
      simp [h2] at this
    · rfl

/-- C3 witness: `"DROP TABLE;"` contains whitespace, a semicolon and a SQL
keyword, lies outside every accepted grammar, and both validators reject
it. -/
theorem C3_witness :
    containsBad "DROP TABLE;" = true
    ∧ acceptedGrammarTrimmed "DROP TABLE;" = false
    ∧ (validateFieldName "DROP TABLE;").isOk = false
    ∧ (validateObjectName "DROP TABLE;").isOk = false := by
  have h := C3_amended_rejection "DROP TABLE;" (by decide) (by decide)
  exact ⟨by decide, by decide, h.1, h.2⟩

/-- C5 (as amended): for blank (empty or whitespace-only) input the sanitizer
returns the empty string; for nonblank input it raises `DangerousPattern`
exactly when the input matches the deny list with the bare asterisk token
included, and otherwise returns the input unchanged. -/
theorem C5_amended_sanitizer (w : String) :
    (trimS w = "" → sanitizeWhereClause w = .ok "")
    ∧ (trimS w ≠ "" → specDenyListedAmended w = true →
        sanitizeWhereClause w = .error .dangerousPattern)
    ∧ (trimS w ≠ "" → specDenyListedAmended w = false → sanitizeWhereClause w = .ok w) := by
  have hsd : ∀ v, specDenyListedAmended v = hasDangerousPattern v := fun _ => rfl
  refine ⟨?_, ?_, ?_⟩
  · intro h
    unfold sanitizeWhereClause
    rw [if_pos (by simp [h])]
  · intro hne hd
    rw [hsd] at hd
    have hw : ¬ w = "" := fun he => hne (by rw [he]; rfl)
    unfold sanitizeWhereClause
    rw [if_neg (by simp [hw, hne]), if_pos hd]
  · intro hne hd
    rw [hsd] at hd
    have hw : ¬ w = "" := fun he => hne (by rw [he]; rfl)
    unfold sanitizeWhereClause
    rw [if_neg (by simp [hw, hne]), if_neg (by simp [hd])]

theorem buildSafeWhereClause_singleton_ok (c : WhereCondition) (r : String)
    (h : buildCondClause c = .ok r) : buildSafeWhereClause [c] = .ok r := by
  unfold buildSafeWhereClause
  simp [List.mapM, List.mapM.loop, h, String.intercalate, String.intercalate.go]

theorem buildSafeWhereClause_singleton_err (c : WhereCondition) (e : SoqlError)
    (h : buildCondClause c = .error e) : buildSafeWhereClause [c] = .error e := by
  unfold buildSafeWhereClause
  simp [List.mapM, List.mapM.loop, h]

/-- C6: condition-value serialization in the WHERE builder follows the fixed
case analysis — `null` serializes to `NULL`, `undefined` always raises, an
array raises `OperatorValueMismatch` unless the operator is `IN / NOT IN /
INCLUDES / EXCLUDES` (case-insensitively, via upper-casing), array elements
must each be a string or a number (anything else raises) and are joined as
`(e1, e2, ...)`, and in particular `Id IN ["a","b"]` serializes to
`Id IN ('a', 'b')`. -/
theorem C6_condition_value_serialization (f op : String)
    (hf : validateFieldName f = .ok f)
    (hop : validOperators.contains (upperS op) = true) :
    buildSafeWhereClause [⟨f, op, .null⟩] = .ok (f ++ " " ++ upperS op ++ " " ++ "NULL")
    ∧ buildSafeWhereClause [⟨f, op, .undef⟩] = .error .undefinedValue
    ∧ (∀ vs, (["IN", "NOT IN", "INCLUDES", "EXCLUDES"] : List String).contains (upperS op) = false →
        buildSafeWhereClause [⟨f, op, .arr vs⟩] = .error .operatorValueMismatch)
    ∧ (∀ vs es, (["IN", "NOT IN", "INCLUDES", "EXCLUDES"] : List String).contains (upperS op) = true →
        vs.mapM serializeArrayElem = .ok es →
        buildSafeWhereClause [⟨f, op, .arr vs⟩]
          = .ok (f ++ " " ++ upperS op ++ " " ++ ("(" ++ String.intercalate ", " es ++ ")")))
    ∧ (∀ vs e, (["IN", "NOT IN", "INCLUDES", "EXCLUDES"] : List String).contains (upperS op) = true →
        vs.mapM serializeArrayElem = .error e →
        buildSafeWhereClause [⟨f, op, .arr vs⟩] = .error e)
    ∧ (∀ v, (serializeArrayElem v).isOk = true ↔ ((∃ a, v = .str a) ∨ (∃ n, v = .num n)))
    ∧ buildSafeWhereClause [⟨"Id", "IN", .arr [.str "a", .str "b"]⟩] = .ok "Id IN ('a', 'b')" := by
  have hop' : upperS op ∈ validOperators := by simpa using hop
  refine ⟨?_, ?_, ?_, ?_, ?_, ?_, by decide⟩
  · have hval : serializeValue .null (upperS op) = .ok "NULL" := rfl
    exact buildSafeWhereClause_singleton_ok _ _ (by simp [buildCondClause, hf, hop', hval])
  · have hval : serializeValue .undef (upperS op) = .error .undefinedValue := rfl
    exact buildSafeWhereClause_singleton_err _ _ (by simp [buildCondClause, hf, hop', hval])
  · intro vs harr
    have hval : serializeValue (.arr vs) (upperS op) = .error .operatorValueMismatch := by
      simp only [serializeValue]
      rw [if_pos (by rw [harr]; rfl)]
    exact buildSafeWhereClause_singleton_err _ _ (by simp [buildCondClause, hf, hop', hval])
  · intro vs es harr hm
    have hval : serializeValue (.arr vs) (upperS op)
        = .ok ("(" ++ String.intercalate ", " es ++ ")") := by
      simp only [serializeValue]
      rw [if_neg (by rw [harr]; simp)]
      simp only [List.mapM] at hm
      simp [hm]
    exact buildSafeWhereClause_singleton_ok _ _ (by simp [buildCondClause, hf, hop', hval])
  · intro vs e harr hm
    have hval : serializeValue (.arr vs) (upperS op) = .error e := by
      simp only [serializeValue]
      rw [if_neg (by rw [harr]; simp)]
      simp only [List.mapM] at hm
      simp [hm]
    exact buildSafeWhereClause_singleton_err _ _ (by simp [buildCondClause, hf, hop', hval])
  · intro v
    cases v <;> simp [serializeArrayElem, Except.isOk, Except.toBool]

/-- C6 witness: the theorem applied at field `Id` and operator `IN`. -/
theorem C6_witness :
    buildSafeWhereClause [⟨"Id", "IN", .null⟩]
      = .ok ("Id" ++ " " ++ upperS "IN" ++ " " ++ "NULL")
    ∧ buildSafeWhereClause [⟨"Id", "IN", .undef⟩] = .error .undefinedValue := by
  have h := C6_condition_value_serialization "Id" "IN" (by decide) (by decide)
  exact ⟨h.1, h.2.1⟩

theorem aggBuild_noclauses_isOk_iff (obj : String) (sel gb : List String) :
    (handleAggregateQueryBuild ⟨obj, sel, gb, none, none, none, none⟩).isOk = true
      ↔ ∀ f ∈ sel, isAggregateField f = false →
          (gb.map trimS).contains (extractBaseField f) = true := by
  have key : (handleAggregateQueryBuild ⟨obj, sel, gb, none, none, none, none⟩).isOk
      = (validateGroupByFields sel gb).isEmpty := by
    cases hmE : (validateGroupByFields sel gb).isEmpty
    · simp [handleAggregateQueryBuild, hmE, Except.isOk, Except.toBool]
    · simp [handleAggregateQueryBuild, hmE, validateWhereClauseAgg, orderByOffender,
        Except.isOk, Except.toBool]
  rw [key, List.isEmpty_iff]
  unfold validateGroupByFields extractNonAggregateFields
  rw [List.filter_eq_nil_iff]
  constructor
  · intro h f hf hagg
    have hb := h (extractBaseField f)
      (List.mem_map_of_mem _ (List.mem_filter.mpr ⟨hf, by simp [hagg]⟩))
    simpa using hb
  · intro h b hb
    rcases List.mem_map.mp hb with ⟨f, hf, rfl⟩
    rcases List.mem_filter.mp hf with ⟨hfs, hna⟩
    have hagg : isAggregateField f = false := by simpa using hna
    simpa using h f hfs hagg

/-- C4 (as amended): with no WHERE, HAVING or ORDER BY, the aggregate build
succeeds iff every non-aggregate select entry, stripped of surrounding
whitespace and its trailing alias, is a member of the group-by list with each
group-by entry trimmed of surrounding whitespace; success is invariant under
permutation of either list; and a `MissingGroupByFields` failure names
exactly the missing base fields. -/
theorem C4_amended_groupby_symmetry (obj : String) (sel gb sel2 gb2 : List String) :
    ((handleAggregateQueryBuild ⟨obj, sel, gb, none, none, none, none⟩).isOk = true
      ↔ ∀ f ∈ sel, isAggregateField f = false →
          (gb.map trimS).contains (extractBaseField f) = true)
    ∧ (sel.Perm sel2 → gb.Perm gb2 →
        (handleAggregateQueryBuild ⟨obj, sel2, gb2, none, none, none, none⟩).isOk
          = (handleAggregateQueryBuild ⟨obj, sel, gb, none, none, none, none⟩).isOk)
    ∧ (∀ m, handleAggregateQueryBuild ⟨obj, sel, gb, none, none, none, none⟩
          = .error (.missingGroupByFields m) →
        m = (extractNonAggregateFields sel).filter
              (fun b => !((gb.map trimS).contains b))) := by
  refine ⟨aggBuild_noclauses_isOk_iff obj sel gb, ?_, ?_⟩
  · intro hs hg
    have hgc : ∀ b, ((gb2.map trimS).contains b) = ((gb.map trimS).contains b) := by
      intro b
      apply Bool.coe_iff_coe.mp
      simp [List.elem_iff, ((hg.map trimS).mem_iff)]
    apply Bool.coe_iff_coe.mp
    rw [aggBuild_noclauses_isOk_iff, aggBuild_noclauses_isOk_iff]
    constructor
    · intro h f hf hagg
      have hb := h f (hs.mem_iff.mp hf) hagg
      rwa [hgc] at hb
    · intro h f hf hagg
      have hb := h f (hs.mem_iff.mpr hf) hagg
      rwa [hgc]
  · intro m hm
    simp only [handleAggregateQueryBuild, validateWhereClauseAgg, orderByOffender,
      strTruthy, numTruthy] at hm
    split_ifs at hm
    all_goals first
      | exact (AggError.missingGroupByFields.inj (Except.error.inj hm)).symm
      | simp at hm

/-- C10: a blank (empty or whitespace-only, length within the guard)
user-supplied WHERE clause passes `sanitizeWhereClause` as the empty string
without raising, and the simple-select build emits a query with no WHERE
clause at all. -/
theorem C10_blank_where_treated_as_absent (w : String)
    (h1 : w.data.all isSpaceC = true) (h2 : w.length ≤ 5000) :
    sanitizeWhereClause w = .ok ""
    ∧ handleQueryRecordsBuild ⟨"Account", ["Id"], some w, none, none⟩
        = .ok "SELECT Id FROM Account" := by
  have htrim : trimS w = "" := by
    unfold trimS trimmed
    have hdw : w.data.dropWhile isSpaceC = [] :=
      List.dropWhile_eq_nil_iff.mpr (fun x hx => List.all_eq_true.mp h1 x hx)
    rw [hdw]
    rfl
  have hsan : sanitizeWhereClause w = .ok "" := by
    unfold sanitizeWhereClause
    rw [if_pos (by simp [htrim])]
  refine ⟨hsan, ?_⟩
  have hws : whereStep (some w) = .ok "" := by
    simp only [whereStep]
    by_cases hw : w = ""
    · rw [if_pos (by simp [hw])]
    · have hlen : ¬ (decide (w.length > MAX_WHERE_LENGTH) = true) := by
        simp only [MAX_WHERE_LENGTH, decide_eq_true_eq, not_lt]
        exact h2
      rw [if_neg (by simp [hw]), if_neg hlen]
      simp [hsan]
  have hobj : validateObjectName "Account" = .ok "Account" := by decide
  have hfld : (["Id"] : List String).mapM validateFieldName = .ok ["Id"] := by decide
  have hrel : (["Id"] : List String).find? relFieldIssue = none := by decide
  simp only [handleQueryRecordsBuild, hobj, hfld, hrel, hws, orderByStep]
  decide

/-- C10 witness: the theorem applied at the three-space WHERE clause. -/
theorem C10_witness :
    sanitizeWhereClause "   " = .ok ""
    ∧ handleQueryRecordsBuild ⟨"Account", ["Id"], some "   ", none, none⟩
        = .ok "SELECT Id FROM Account" :=
  C10_blank_where_treated_as_absent "   " (by decide) (by decide)
